import Mathlib

/-!
Shallow embedding of `src/export.py` (Meshcapade avatar export script).

The script has four parts, embedded below in source order:
* `try_get_download_url` — interprets one export-status JSON response
  (lines 36-76 of `export.py`);
* `export_avatar` — the poll loop with a 5-second interval and a
  600-second deadline (lines 79-115);
* `download_file` — mkdir of parent directories, truncating open,
  streamed write of fixed 1 MiB chunks (lines 118-138);
* `main` — credential lookup, argument parsing, top-level error
  handling mapping any exception to exit code 1 (lines 141-183).

Modelling conventions:
* JSON values are the inductive `Json`; Python `dict.get(k, d)` is
  `Json.pyGet`, which raises `AttributeError` on a non-dict receiver,
  exactly as Python does; Python truthiness is `Json.truthy`.
* Exceptions are the inductive `PyExc`; an exception constructor carries
  the data that the corresponding Python f-string interpolates into the
  message (e.g. `PyExc.valueError` carries the raw `response_json` that
  line 64 embeds into the `ValueError` message).
* Time: the poll loop is modelled with a simulated clock in which time
  advances only during `time.sleep`, by exactly the slept duration; the
  requester is a stub `Nat → Except PyExc Json` giving the outcome of
  the k-th call to `try_get_download_url`, as in the spec's testable
  properties ("injectable clock/sleep function", spec section 9).
* The filesystem is a `FileSystem` record of a directory set and a
  partial map from paths (segment lists) to byte lists (bytes as `Nat`).
-/

namespace Meshcapade

/-- JSON values, as produced by `response.json()` in `export.py`.
Numbers are modelled as integers (no claim involves numeric fields). -/
inductive Json where
  | null
  | bool (b : Bool)
  | num (n : Int)
  | str (s : String)
  | arr (elems : List Json)
  | obj (fields : List (String × Json))

/-- Python truthiness of a JSON value: `None`, `False`, `0`, `""`, `[]`
and the empty dict are falsy, everything else is truthy.  Used by the
source at lines 63 (`if not attributes`), 68 (`if url_obj`), 101
(`while not download_url`) and 104 (`if download_url`). -/
def Json.truthy : Json → Bool
  | .null => false
  | .bool b => b
  | .num n => n != 0
  | .str s => s != ""
  | .arr elems => !elems.isEmpty
  | .obj fields => !fields.isEmpty

/-- The exceptions `export.py` can raise while obtaining the download URL.
Each constructor carries the data interpolated into the Python message:
* `attributeError` — `.get` called on a non-dict value (Python raises
  `AttributeError`; no message data is modelled);
* `valueError response_json` — line 64,
  `ValueError(f"Export response came back empty: {response_json}")`;
* `runtimeError response_json` — line 73,
  `RuntimeError(f"Export finished with ERROR state: {response_json}")`;
* `timeoutError max_wait` — line 110,
  `TimeoutError(f"Export timed out after {max_wait} seconds")`;
* `configError msg` — line 164, `ValueError` raised in `main` when the
  token environment variable is unset or empty. -/
inductive PyExc where
  | attributeError
  | valueError (response_json : Json)
  | runtimeError (response_json : Json)
  | timeoutError (max_wait : Nat)
  | configError (msg : String)

/-- Python `d.get(key, default)`: on a dict, the stored value if the key
is present and `default` otherwise; on any non-dict value Python raises
`AttributeError`. -/
def Json.pyGet : Json → String → Json → Except PyExc Json
  | .obj fields, key, dflt => .ok ((fields.lookup key).getD dflt)
  | _, _, _ => .error .attributeError

/-- Line 32 of `export.py`. -/
def ASSET_STATE_READY : String := "READY"

/-- Line 33 of `export.py`. -/
def ASSET_STATE_ERROR : String := "ERROR"

/-- Python `j == s` for a JSON value `j` and a string constant `s`:
true exactly when `j` is the string `s`.  Models lines 70 and 72. -/
def Json.isStr : Json → String → Bool
  | .str t, s => t == s
  | _, _ => false

/-- `try_get_download_url` (lines 36-76 of `export.py`), as a function of
the parsed response body (the HTTP POST itself is abstracted away; a
non-success HTTP status would propagate before this code runs).  Returns
`Json.null` for Python `None`; the runtime value of `url_obj.get("path")`
is returned as-is, as in the source. -/
def try_get_download_url (response_json : Json) : Except PyExc Json :=
  match response_json.pyGet "data" (.obj []) with
  | .error e => .error e
  | .ok data =>
  match data.pyGet "attributes" (.obj []) with
  | .error e => .error e
  | .ok attributes =>
  if !attributes.truthy then
    .error (.valueError response_json)
  else
  match attributes.pyGet "state" .null with
  | .error e => .error e
  | .ok state =>
  match attributes.pyGet "url" (.obj []) with
  | .error e => .error e
  | .ok url_obj =>
  match (if url_obj.truthy then url_obj.pyGet "path" .null else .ok .null) with
  | .error e => .error e
  | .ok download_url =>
  if state.isStr ASSET_STATE_READY then
    .ok download_url
  else if state.isStr ASSET_STATE_ERROR then
    .error (.runtimeError response_json)
  else
    .ok .null

/-- Line 90 of `export.py`: poll every 5 seconds. -/
def poll_interval : Nat := 5

/-- Line 91 of `export.py`: wait for up to 600 seconds. -/
def max_wait : Nat := 600

/-- The `while` loop of `export_avatar` (lines 101-113).  `req k` is the
outcome of the k-th call to `try_get_download_url` (a stub requester, as
in the spec's testable properties); `log` is the list of sleep durations
performed so far, so under the simulated clock the elapsed time since
`start_time` is `log.sum`.  On success the loop returns the download URL
together with the final sleep log.  Each iteration: call the requester
(an exception propagates), break if the result is truthy, otherwise
check `elapsed > max_wait` and raise `TimeoutError`, else sleep
`poll_interval` seconds and retry. -/
def export_avatar_loop (req : Nat → Except PyExc Json) (k : Nat)
    (log : List Nat) : Except PyExc (Json × List Nat) :=
  match req k with
  | .error e => .error e
  | .ok download_url =>
    if download_url.truthy then
      .ok (download_url, log)
    else if h : log.sum > max_wait then
      .error (.timeoutError max_wait)
    else
      export_avatar_loop req (k + 1) (log ++ [poll_interval])
termination_by max_wait + 1 - log.sum
decreasing_by
  simp only [List.sum_append, List.sum_cons, List.sum_nil, poll_interval] at *
  simp only [max_wait] at *
  omega

/-- `export_avatar` (lines 79-115): start the clock at 0 with an empty
sleep log and run the poll loop from the first call. -/
def export_avatar (req : Nat → Except PyExc Json) :
    Except PyExc (Json × List Nat) :=
  export_avatar_loop req 0 []

/-- A filesystem path, as a list of segments (`Path` in the source;
`Path(p).parent` is `List.dropLast`). -/
abbrev FsPath := List String

/-- The observable filesystem state: which directories exist and which
files exist with what byte content (bytes as `Nat`). -/
structure FileSystem where
  dirs : FsPath → Bool
  files : FsPath → Option (List Nat)

/-- Line 127: `output_file.parent.mkdir(parents=True, exist_ok=True)` —
after the call, `d` and every nonempty prefix of `d` exist. -/
def FileSystem.mkdir_parents (fs : FileSystem) (d : FsPath) : FileSystem :=
  { fs with dirs := fun q => (!q.isEmpty && q.isPrefixOf d) || fs.dirs q }

/-- Line 129: `open(output_file, "wb")` — creates the file at `p`, or
truncates it to empty if it already exists. -/
def FileSystem.truncate (fs : FileSystem) (p : FsPath) : FileSystem :=
  { fs with files := fun q => if q = p then some [] else fs.files q }

/-- Line 136: `f.write(chunk)` on a file opened for appending-style
sequential writes — the chunk is appended to the current content. -/
def FileSystem.appendFile (fs : FileSystem) (p : FsPath) (c : List Nat) :
    FileSystem :=
  { fs with
    files := fun q =>
      if q = p then some ((fs.files p).getD [] ++ c) else fs.files q }

/-- Line 135: `chunk_size=1024 * 1024` (1 MiB). -/
def chunk_size : Nat := 1024 * 1024

/-- `response.iter_content(chunk_size=1024 * 1024)` (line 135): the body
split into successive chunks of `chunk_size` bytes, the last chunk
possibly shorter; an empty body yields no chunks. -/
def iter_content (body : List Nat) : List (List Nat) :=
  if h : body = [] then []
  else body.take chunk_size :: iter_content (body.drop chunk_size)
termination_by body.length
decreasing_by
  have hlen : 0 < body.length := by
    cases body with
    | nil => exact absurd rfl h
    | cons a l => simp
  simp only [List.length_drop, chunk_size]
  omega

/-- The outcome of `requests.get(download_url, stream=True, timeout=60)`
followed by `raise_for_status()` (lines 131-132):
* `success body` — a 2xx response whose streamed body is `body`;
* `httpError e` — a non-success status, `raise_for_status` raises
  `requests.exceptions.HTTPError` (carrying message `e`);
* `transportError e` — `requests.get` itself raises (connection error
  or the 60-second timeout); this is not an `HTTPError`, so the
  `except` clause at line 133 does not catch it. -/
inductive GetResult where
  | success (body : List Nat)
  | httpError (e : String)
  | transportError (e : String)

/-- The exceptions `download_file` can raise:
* `downloadFailed e` — line 134,
  `RuntimeError(f"Failed to download file: {err}")` wrapping the
  `HTTPError` message `e`;
* `transport e` — an uncaught `requests` exception from line 131,
  propagating as-is. -/
inductive DownloadError where
  | downloadFailed (underlying : String)
  | transport (e : String)

/-- `download_file` (lines 118-138): create missing parent directories
of `output_path`, open the destination for binary writing (creating or
truncating it), then issue the GET; on `HTTPError` re-raise a wrapped
`RuntimeError`, on a transport error propagate it, and on success append
the body's 1 MiB chunks to the file in order.  The GET outcome is the
parameter `response`; returns the final filesystem and either `()` or
the raised error.  (The `with open` block closes the handle on every
path; handles are not part of the filesystem model.) -/
def download_file (fs : FileSystem) (response : GetResult)
    (output_path : FsPath) : FileSystem × Except DownloadError Unit :=
  let fs1 := fs.mkdir_parents output_path.dropLast
  let fs2 := fs1.truncate output_path
  match response with
  | .httpError e => (fs2, .error (.downloadFailed e))
  | .transportError e => (fs2, .error (.transport e))
  | .success body =>
      ((iter_content body).foldl (fun s c => s.appendFile output_path c) fs2,
       .ok ())

/-- The exact message of the `ValueError` raised at line 164 of
`export.py` when the token environment variable is unset or empty. -/
def token_missing_msg : String :=
  "MESHCAPADE_API_TOKEN is not set in the environment variables"

/-- `str(e)` for the modelled exceptions, as interpolated into the
`Error: {e}` line printed by `main` (line 178).  Where the Python
message interpolates a JSON body or an underlying exception, the carried
data stands for that interpolation; the textual rendering of a JSON
value is elided (no claim inspects it), so those messages are the fixed
prefix of the Python f-string. -/
def PyExc.message : PyExc → String
  | .attributeError => "AttributeError"
  | .valueError _ => "Export response came back empty: "
  | .runtimeError _ => "Export finished with ERROR state: "
  | .timeoutError w => "Export timed out after " ++ toString w ++ " seconds"
  | .configError msg => msg

/-- `str(e)` for download-stage errors (see `PyExc.message`). -/
def DownloadError.message : DownloadError → String
  | .downloadFailed e => "Failed to download file: " ++ e
  | .transport e => e

/-- The observable outcome of one run of `main`: the process exit code
(0 when `main` returns normally, 1 via `sys.exit(1)` at line 179, 2 when
`argparse` rejects the command line), the lines printed to standard
error, and the final filesystem.  Progress lines printed to standard
output are not modelled. -/
structure MainResult where
  exit_code : Nat
  stderr : List String
  fs : FileSystem

/-- The body of `main` after argument parsing (lines 156-179): compute
the output path `f"{asset_id}.glb"`, read the token from the
environment, raise a `ValueError` if it is unset or empty (`if not
token`), otherwise run the poll loop and then the downloader; any
exception is caught once, printed as a single `Error: {e}` line on
standard error, and the process exits with code 1.  The network is
abstracted by the requester stub `req` (outcomes of the successive
export-status calls) and `get` (outcome of the download GET): a branch
whose result does not depend on `req` or `get` performed no network
call. -/
def main_body (env : String → Option String) (asset_id : String)
    (req : Nat → Except PyExc Json) (get : GetResult)
    (fs : FileSystem) : MainResult :=
  let output_path : FsPath := [asset_id ++ ".glb"]
  let token := env "MESHCAPADE_API_TOKEN"
  match token with
  | none => ⟨1, ["Error: " ++ token_missing_msg], fs⟩
  | some t =>
    if t = "" then
      ⟨1, ["Error: " ++ token_missing_msg], fs⟩
    else
      match export_avatar req with
      | .error e => ⟨1, ["Error: " ++ e.message], fs⟩
      | .ok _ =>
        match download_file fs get output_path with
        | (fs2, .error de) => ⟨1, ["Error: " ++ de.message], fs2⟩
        | (fs2, .ok _) => ⟨0, [], fs2⟩

/-- The errors `argparse` reports (with usage text on standard error and
exit code 2). -/
inductive ArgError where
  | missingArgument
  | unrecognizedArguments

/-- `argparse` with a single positional `asset_id` of type `str`
(lines 145-154): any single argument — including the empty string — is
accepted verbatim; no argument, or more than one, is an error. -/
def parse_args (argv : List String) : Except ArgError String :=
  match argv with
  | [a] => .ok a
  | [] => .error .missingArgument
  | _ => .error .unrecognizedArguments

/-- `main` (lines 141-183): parse the command line (argparse failure
prints usage to standard error and exits with code 2, touching nothing
else), then run the workflow body. -/
def main (argv : List String) (env : String → Option String)
    (req : Nat → Except PyExc Json) (get : GetResult)
    (fs : FileSystem) : MainResult :=
  match parse_args argv with
  | .error _ => ⟨2, ["usage: export.py asset_id"], fs⟩
  | .ok asset_id => main_body env asset_id req get fs

/-! ### Concrete stubs used by witnesses and counterexamples -/

/-- A requester stub that is pending (returns `None`) on every call. -/
def req_pending : Nat → Except PyExc Json := fun _ => .ok Json.null

/-- A requester stub that is pending on its first 122 calls and ready
afterwards — one pending answer too many for the 600-second deadline. -/
def req_122 : Nat → Except PyExc Json := fun k =>
  if k < 122 then .ok Json.null else .ok (.str "https://example/x.glb")

/-- A requester stub that is pending once, then ready. -/
def req_once : Nat → Except PyExc Json := fun k =>
  if k = 0 then .ok Json.null else .ok (.str "https://example/x.glb")

/-- A requester stub that is ready at once. -/
def req_ready : Nat → Except PyExc Json :=
  fun _ => .ok (.str "https://example/x.glb")

/-- A requester stub that raises at once. -/
def req_raises : Nat → Except PyExc Json := fun _ => .error .attributeError

/-- An empty filesystem. -/
def fs_empty : FileSystem := ⟨fun _ => false, fun _ => none⟩

/-- An environment with no variables set. -/
def env_empty : String → Option String := fun _ => none

/-- An environment in which the token variable holds a nonempty value. -/
def env_with_token : String → Option String := fun k =>
  if k = "MESHCAPADE_API_TOKEN" then some "token123" else none

/-- A response that is ready with a populated download URL. -/
def resp_ready : Json :=
  .obj [("data", .obj [("attributes", .obj
    [("state", .str "READY"),
     ("url", .obj [("path", .str "https://example/x.glb")])])])]

/-- A response in the `ERROR` state. -/
def resp_error : Json :=
  .obj [("data", .obj [("attributes", .obj [("state", .str "ERROR")])])]

/-- A response whose `data` object has no `attributes` substructure. -/
def resp_no_attributes : Json := .obj [("data", .obj [])]

/-- A response that is ready but carries no `url` object at all. -/
def resp_ready_no_url : Json :=
  .obj [("data", .obj [("attributes", .obj [("state", .str "READY")])])]

/-! ### Helper lemmas about the poll loop -/

/-- An exception from the requester propagates out of the loop. -/
lemma export_avatar_loop_error {req : Nat → Except PyExc Json} {k : Nat}
    {e : PyExc} (log : List Nat) (h : req k = .error e) :
    export_avatar_loop req k log = .error e := by
  rw [export_avatar_loop, h]

/-- A truthy requester result ends the loop at once. -/
lemma export_avatar_loop_done {req : Nat → Except PyExc Json} {k : Nat}
    {v : Json} (log : List Nat) (h : req k = .ok v)
    (ht : v.truthy = true) :
    export_avatar_loop req k log = .ok (v, log) := by
  rw [export_avatar_loop, h]
  simp [ht]

/-- A falsy requester result with the deadline already exceeded raises
the timeout error. -/
lemma export_avatar_loop_timeout {req : Nat → Except PyExc Json} {k : Nat}
    {v : Json} (log : List Nat) (h : req k = .ok v)
    (ht : v.truthy = false) (hs : log.sum > max_wait) :
    export_avatar_loop req k log = .error (.timeoutError max_wait) := by
  rw [export_avatar_loop, h]
  simp [ht, hs]

/-- A falsy requester result within the deadline sleeps `poll_interval`
seconds and retries. -/
lemma export_avatar_loop_sleep {req : Nat → Except PyExc Json} {k : Nat}
    {v : Json} (log : List Nat) (h : req k = .ok v)
    (ht : v.truthy = false) (hs : log.sum ≤ max_wait) :
    export_avatar_loop req k log =
      export_avatar_loop req (k + 1) (log ++ [poll_interval]) := by
  have hs2 : ¬ log.sum > max_wait := by omega
  rw [export_avatar_loop, h]
  simp [ht, hs2]

lemma sum_replicate_nat (m a : Nat) : (List.replicate m a).sum = m * a := by
  induction m with
  | zero => simp
  | succ m ih => rw [List.replicate_succ, List.sum_cons, ih]; ring

/-- Running the loop through `n` consecutive pending results: starting
after `m` sleeps, the loop reaches call `k + n` after `m + n` sleeps,
provided the deadline check passes at each of the `n` intermediate
iterations. -/
lemma export_avatar_loop_pending_run (req : Nat → Except PyExc Json) :
    ∀ (n k m : Nat), (∀ j, j < n → req (k + j) = .ok Json.null) →
    poll_interval * (m + n) ≤ max_wait + poll_interval →
    export_avatar_loop req k (List.replicate m poll_interval) =
      export_avatar_loop req (k + n) (List.replicate (m + n) poll_interval) := by
  intro n
  induction n with
  | zero => intro k m _ _; rfl
  | succ n ih =>
    intro k m hpend hbound
    have h0 : req k = .ok Json.null := by
      have := hpend 0 (by omega)
      simpa using this
    have hsum : (List.replicate m poll_interval).sum ≤ max_wait := by
      rw [sum_replicate_nat]
      simp only [poll_interval, max_wait] at *
      omega
    rw [export_avatar_loop_sleep (List.replicate m poll_interval) h0 rfl hsum]
    rw [← List.replicate_succ' m poll_interval]
    have hstep := ih (k + 1) (m + 1)
      (fun j hj => by
        have := hpend (j + 1) (by omega)
        rw [show k + 1 + j = k + (j + 1) by omega]
        exact this)
      (by rw [show m + 1 + n = m + (n + 1) by omega]; exact hbound)
    rw [hstep, show k + 1 + n = k + (n + 1) by omega,
      show m + 1 + n = m + (n + 1) by omega]

/-! ### Helper lemmas about the downloader -/

/-- Concatenating the streamed chunks in order recovers the body. -/
lemma iter_content_join (body : List Nat) :
    (iter_content body).flatten = body := by
  rw [iter_content]
  split
  · rename_i h; subst h; simp
  · rename_i h
    have ih := iter_content_join (body.drop chunk_size)
    simp only [List.flatten_cons]
    rw [ih, List.take_append_drop]
termination_by body.length
decreasing_by
  simp only [List.length_drop, chunk_size]
  cases body with
  | nil => simp_all
  | cons a l => simp only [List.length_cons]; omega

/-- Appending chunks one by one yields the concatenation, in order. -/
lemma foldl_appendFile_files (p : FsPath) :
    ∀ (cs : List (List Nat)) (fs : FileSystem) (l : List Nat),
    fs.files p = some l →
    ((cs.foldl (fun s c => s.appendFile p c) fs).files p) =
      some (l ++ cs.flatten) := by
  intro cs
  induction cs with
  | nil => intro fs l h; simpa using h
  | cons c cs ih =>
    intro fs l h
    simp only [List.foldl_cons]
    have h2 : (fs.appendFile p c).files p = some (l ++ c) := by
      simp [FileSystem.appendFile, h]
    rw [ih _ _ h2]
    simp [List.flatten_cons, List.append_assoc]

/-- Writing chunks never changes the directory set. -/
lemma foldl_appendFile_dirs (p : FsPath) :
    ∀ (cs : List (List Nat)) (fs : FileSystem),
    ((cs.foldl (fun s c => s.appendFile p c) fs).dirs) = fs.dirs := by
  intro cs
  induction cs with
  | nil => intro fs; rfl
  | cons c cs ih => intro fs; simp only [List.foldl_cons]; rw [ih]; rfl

/-! ### Claims -/

/-- Claim C1: if the requester returns pending (`None`) on every call,
the poll loop fails with a timeout error naming the configured maximum
wait of 600 seconds; the timeout check (elapsed time strictly exceeding
`max_wait`, measured from loop start) is performed on each iteration
after a pending result and before sleeping: with elapsed time over the
deadline the iteration raises the timeout, and otherwise it sleeps the
fixed interval and retries. -/
theorem claim_C1_poll_timeout (req : Nat → Except PyExc Json)
    (h : ∀ k, req k = .ok Json.null) :
    export_avatar req = .error (.timeoutError max_wait) ∧ max_wait = 600 ∧
    (∀ (k : Nat) (log : List Nat), log.sum > max_wait →
      export_avatar_loop req k log = .error (.timeoutError max_wait)) ∧
    (∀ (k : Nat) (log : List Nat), log.sum ≤ max_wait →
      export_avatar_loop req k log =
        export_avatar_loop req (k + 1) (log ++ [poll_interval])) := by
  refine ⟨?_, rfl, ?_, ?_⟩
  · have h1 := export_avatar_loop_pending_run req 121 0 0
      (fun j _ => h (0 + j))
      (by simp [poll_interval, max_wait])
    have h2 := export_avatar_loop_timeout
      (List.replicate 121 poll_interval) (h 121) rfl
      (by rw [sum_replicate_nat]; simp [poll_interval, max_wait])
    show export_avatar_loop req 0 [] = _
    simp only [Nat.zero_add, List.replicate_zero] at h1
    exact h1.trans h2
  · intro k log hs
    exact export_avatar_loop_timeout log (h k) rfl hs
  · intro k log hs
    exact export_avatar_loop_sleep log (h k) rfl hs

/-- Witness for C1 at the always-pending stub requester. -/
theorem claim_C1_poll_timeout_witness :
    export_avatar req_pending = .error (.timeoutError max_wait) :=
  (claim_C1_poll_timeout req_pending (fun _ => rfl)).1

/-- Claim C2 (amended): for every `N ≤ 121`, if the requester returns
pending on its first `N` calls and a non-empty download URL on call
`N + 1`, the poll loop sleeps exactly `N` times, each for the fixed
5-second interval, and returns that URL to the caller.  (For `N ≥ 122`
the 600-second deadline fires first; see the counterexample.) -/
theorem claim_C2_poll_sleeps (req : Nat → Except PyExc Json)
    (N : Nat) (u : String) (hN : N ≤ 121)
    (hpend : ∀ k, k < N → req k = .ok Json.null)
    (hready : req N = .ok (.str u)) (hu : u ≠ "") :
    export_avatar req = .ok (.str u, List.replicate N poll_interval) ∧
    poll_interval = 5 := by
  constructor
  · have h1 := export_avatar_loop_pending_run req N 0 0
      (fun j hj => by simpa using hpend j hj)
      (by simp only [poll_interval, max_wait]; omega)
    have h2 := export_avatar_loop_done
      (List.replicate N poll_interval) hready
      (by simp [Json.truthy, hu])
    show export_avatar_loop req 0 [] = _
    simp only [Nat.zero_add, List.replicate_zero] at h1
    exact h1.trans h2
  · rfl

/-- Witness for C2 at `N = 1`: pending once, then ready. -/
theorem claim_C2_poll_sleeps_witness :
    export_avatar req_once =
      .ok (.str "https://example/x.glb", List.replicate 1 poll_interval) :=
  (claim_C2_poll_sleeps req_once 1 "https://example/x.glb" (by omega)
    (fun k hk => by
      have hk0 : k = 0 := by omega
      subst hk0; rfl)
    rfl (by decide)).1

/-- Counterexample for C2 as stated: at `N = 122` (pending on the first
122 calls, ready on call 123) the loop does not return the URL after 122
sleeps — it raises the timeout error after 121 sleeps, because elapsed
time is then 605 s > 600 s. -/
theorem claim_C2_counterexample :
    export_avatar req_122 = .error (.timeoutError max_wait) ∧
    export_avatar req_122 ≠
      .ok (.str "https://example/x.glb", List.replicate 122 poll_interval) := by
  have h1 := export_avatar_loop_pending_run req_122 121 0 0
    (fun j hj => by simp only [req_122]; rw [if_pos (by omega)])
    (by simp [poll_interval, max_wait])
  have h2 := export_avatar_loop_timeout
    (List.replicate 121 poll_interval)
    (show req_122 121 = .ok Json.null by
      simp only [req_122]; rw [if_pos (by omega)])
    rfl
    (by rw [sum_replicate_nat]; simp [poll_interval, max_wait])
  have hmain : export_avatar req_122 = .error (.timeoutError max_wait) := by
    show export_avatar_loop req_122 0 [] = _
    simp only [Nat.zero_add, List.replicate_zero] at h1
    exact h1.trans h2
  exact ⟨hmain, by rw [hmain]; simp⟩

/-- Claim C3: for every export-status response whose attributes contain
state `READY` and a populated `url.path` string, `try_get_download_url`
returns exactly that URL string. -/
theorem claim_C3_ready_returns_url (rf df af uf : List (String × Json))
    (u : String)
    (hdata : rf.lookup "data" = some (.obj df))
    (hattr : df.lookup "attributes" = some (.obj af))
    (hstate : af.lookup "state" = some (.str "READY"))
    (hurl : af.lookup "url" = some (.obj uf))
    (hpath : uf.lookup "path" = some (.str u))
    (hu : u ≠ "") :
    try_get_download_url (.obj rf) = .ok (.str u) := by
  have hafE : af.isEmpty = false := by
    cases af with
    | nil => simp [List.lookup] at hstate
    | cons hd tl => rfl
  have hufE : uf.isEmpty = false := by
    cases uf with
    | nil => simp [List.lookup] at hpath
    | cons hd tl => rfl
  simp only [try_get_download_url, Json.pyGet, hdata, hattr, hstate, hurl,
    hpath, Option.getD_some, Json.truthy, Json.isStr, ASSET_STATE_READY,
    ASSET_STATE_ERROR, hafE, hufE, Bool.not_false, Bool.not_true,
    beq_self_eq_true, if_true, if_false, Bool.false_eq_true, ite_false,
    ite_true]

/-- Witness for C3 at a concrete ready response. -/
theorem claim_C3_ready_returns_url_witness :
    try_get_download_url resp_ready = .ok (.str "https://example/x.glb") :=
  claim_C3_ready_returns_url
    [("data", .obj [("attributes", .obj
      [("state", .str "READY"),
       ("url", .obj [("path", .str "https://example/x.glb")])])])]
    [("attributes", .obj
      [("state", .str "READY"),
       ("url", .obj [("path", .str "https://example/x.glb")])])]
    [("state", .str "READY"),
     ("url", .obj [("path", .str "https://example/x.glb")])]
    [("path", .str "https://example/x.glb")]
    "https://example/x.glb" rfl rfl rfl rfl rfl (by decide)

/-- Claim C4: for every export-status response whose attributes contain
state `ERROR` (and whose `url` field, when present, conforms to the
documented response format — absent, `null`, or an object), the
requester raises the terminal job-failure `RuntimeError`, and the raised
error carries the original raw response body (the data the Python
f-string interpolates into the message). -/
theorem claim_C4_error_state_raises (rf df af : List (String × Json))
    (hdata : rf.lookup "data" = some (.obj df))
    (hattr : df.lookup "attributes" = some (.obj af))
    (hstate : af.lookup "state" = some (.str "ERROR"))
    (hurl : af.lookup "url" = none ∨ af.lookup "url" = some Json.null ∨
      ∃ uf, af.lookup "url" = some (.obj uf)) :
    try_get_download_url (.obj rf) = .error (.runtimeError (.obj rf)) := by
  have hafE : af.isEmpty = false := by
    cases af with
    | nil => simp [List.lookup] at hstate
    | cons hd tl => rfl
  rcases hurl with h | h | ⟨uf, h⟩
  · simp only [try_get_download_url, Json.pyGet, hdata, hattr, hstate, h,
      Option.getD_some, Option.getD_none, Json.truthy, Json.isStr,
      ASSET_STATE_READY, ASSET_STATE_ERROR, hafE, List.isEmpty_nil,
      Bool.not_false, Bool.not_true, beq_self_eq_true, if_true, if_false,
      Bool.false_eq_true, ite_false, ite_true, String.reduceBEq]
  · simp only [try_get_download_url, Json.pyGet, hdata, hattr, hstate, h,
      Option.getD_some, Json.truthy, Json.isStr, ASSET_STATE_READY,
      ASSET_STATE_ERROR, hafE, Bool.not_false, Bool.not_true,
      beq_self_eq_true, if_true, if_false, Bool.false_eq_true, ite_false,
      ite_true, String.reduceBEq]
  · cases uf with
    | nil =>
      simp only [try_get_download_url, Json.pyGet, hdata, hattr, hstate, h,
        Option.getD_some, Json.truthy, Json.isStr, ASSET_STATE_READY,
        ASSET_STATE_ERROR, hafE, List.isEmpty_nil, Bool.not_false,
        Bool.not_true, beq_self_eq_true, if_true, if_false,
        Bool.false_eq_true, ite_false, ite_true, String.reduceBEq]
    | cons hd tl =>
      simp only [try_get_download_url, Json.pyGet, hdata, hattr, hstate, h,
        Option.getD_some, Json.truthy, Json.isStr, ASSET_STATE_READY,
        ASSET_STATE_ERROR, hafE, List.isEmpty_cons, Bool.not_false,
        Bool.not_true, beq_self_eq_true, if_true, if_false,
        Bool.false_eq_true, ite_false, ite_true, String.reduceBEq]

/-- Witness for C4 at a concrete `ERROR` response. -/
theorem claim_C4_error_state_raises_witness :
    try_get_download_url resp_error = .error (.runtimeError resp_error) :=
  claim_C4_error_state_raises
    [("data", .obj [("attributes", .obj [("state", .str "ERROR")])])]
    [("attributes", .obj [("state", .str "ERROR")])]
    [("state", .str "ERROR")]
    rfl rfl rfl (Or.inl rfl)

/-- Claim C5: for every export-status response whose top-level
`attributes` substructure is missing or empty (no `data` field, or a
`data` object with no `attributes` field, or an empty `attributes`
object), the requester fails with the malformed-response `ValueError`,
which carries the raw response body, and returns neither a URL nor
pending. -/
theorem claim_C5_missing_attributes_raises (rf : List (String × Json))
    (hmiss : rf.lookup "data" = none ∨
      ∃ df, rf.lookup "data" = some (.obj df) ∧
        (df.lookup "attributes" = none ∨
         df.lookup "attributes" = some (.obj []))) :
    try_get_download_url (.obj rf) = .error (.valueError (.obj rf)) := by
  rcases hmiss with h | ⟨df, hdf, h2⟩
  · simp only [try_get_download_url, Json.pyGet, h, Option.getD_none,
      List.lookup_nil, Json.truthy, List.isEmpty_nil, Bool.not_false,
      if_true, ite_true]
    rfl
  · rcases h2 with h2 | h2 <;>
      · simp only [try_get_download_url, Json.pyGet, hdf, h2,
          Option.getD_some, Option.getD_none, Json.truthy,
          List.isEmpty_nil, Bool.not_false, if_true, ite_true]
        rfl

/-- Witness for C5 at a concrete response with no attributes. -/
theorem claim_C5_missing_attributes_raises_witness :
    try_get_download_url resp_no_attributes =
      .error (.valueError resp_no_attributes) :=
  claim_C5_missing_attributes_raises
    [("data", .obj [])] (Or.inr ⟨[], rfl, Or.inl rfl⟩)

/-- Claim C6: for every export-status response whose attributes contain
state `READY` but no `url.path` (the `url` object absent, empty, or
lacking a `path` entry), the requester returns `None` — no URL and no
error — and the poll loop treats that call result as still pending:
within the deadline it sleeps the fixed interval and keeps polling. -/
theorem claim_C6_ready_without_url_pending (rf df af : List (String × Json))
    (req : Nat → Except PyExc Json) (k : Nat) (log : List Nat)
    (hdata : rf.lookup "data" = some (.obj df))
    (hattr : df.lookup "attributes" = some (.obj af))
    (hstate : af.lookup "state" = some (.str "READY"))
    (hurl : af.lookup "url" = none ∨ af.lookup "url" = some (.obj []) ∨
      ∃ uf, af.lookup "url" = some (.obj uf) ∧ uf.lookup "path" = none)
    (hreq : req k = try_get_download_url (.obj rf))
    (hlog : log.sum ≤ max_wait) :
    try_get_download_url (.obj rf) = .ok Json.null ∧
    export_avatar_loop req k log =
      export_avatar_loop req (k + 1) (log ++ [poll_interval]) := by
  have hafE : af.isEmpty = false := by
    cases af with
    | nil => simp [List.lookup] at hstate
    | cons hd tl => rfl
  have hnone : try_get_download_url (.obj rf) = .ok Json.null := by
    rcases hurl with h | h | ⟨uf, h, hp⟩
    · simp only [try_get_download_url, Json.pyGet, hdata, hattr, hstate, h,
        Option.getD_some, Option.getD_none, Json.truthy, Json.isStr,
        ASSET_STATE_READY, ASSET_STATE_ERROR, hafE, List.isEmpty_nil,
        Bool.not_false, Bool.not_true, beq_self_eq_true, if_true, if_false,
        Bool.false_eq_true, ite_false, ite_true]
    · simp only [try_get_download_url, Json.pyGet, hdata, hattr, hstate, h,
        Option.getD_some, Json.truthy, Json.isStr, ASSET_STATE_READY,
        ASSET_STATE_ERROR, hafE, List.isEmpty_nil, Bool.not_false,
        Bool.not_true, beq_self_eq_true, if_true, if_false,
        Bool.false_eq_true, ite_false, ite_true]
    · cases uf with
      | nil =>
        simp only [try_get_download_url, Json.pyGet, hdata, hattr, hstate,
          h, Option.getD_some, Json.truthy, Json.isStr, ASSET_STATE_READY,
          ASSET_STATE_ERROR, hafE, List.isEmpty_nil, Bool.not_false,
          Bool.not_true, beq_self_eq_true, if_true, if_false,
          Bool.false_eq_true, ite_false, ite_true]
      | cons hd tl =>
        simp only [try_get_download_url, Json.pyGet, hdata, hattr, hstate,
          h, hp, Option.getD_some, Option.getD_none, Json.truthy,
          Json.isStr, ASSET_STATE_READY, ASSET_STATE_ERROR, hafE,
          List.isEmpty_cons, Bool.not_false, Bool.not_true,
          beq_self_eq_true, if_true, if_false, Bool.false_eq_true,
          ite_false, ite_true]
  exact ⟨hnone,
    export_avatar_loop_sleep log (hreq.trans hnone) rfl hlog⟩

/-- Witness for C6 at a concrete ready-without-url response, feeding the
poll loop at its first iteration. -/
theorem claim_C6_ready_without_url_pending_witness :
    try_get_download_url resp_ready_no_url = .ok Json.null ∧
    export_avatar_loop (fun _ => try_get_download_url resp_ready_no_url)
        0 [] =
      export_avatar_loop (fun _ => try_get_download_url resp_ready_no_url)
        1 [poll_interval] :=
  claim_C6_ready_without_url_pending
    [("data", .obj [("attributes", .obj [("state", .str "READY")])])]
    [("attributes", .obj [("state", .str "READY")])]
    [("state", .str "READY")]
    (fun _ => try_get_download_url resp_ready_no_url) 0 []
    rfl rfl rfl (Or.inl rfl) rfl (by simp)

/-- Claim C7: for every successful download, `download_file` creates
any missing parent directories of the output path (every nonempty
prefix `q` of the parent exists afterwards) and writes the output file
as the in-order concatenation of the response body's fixed-size 1 MiB
chunks, so the resulting file is byte-identical to the downloaded
body. -/
theorem claim_C7_download_writes_body (fs : FileSystem) (body : List Nat)
    (p q : FsPath) (hq1 : q ≠ [])
    (hq2 : q.isPrefixOf p.dropLast = true) :
    (download_file fs (.success body) p).2 = .ok () ∧
    (download_file fs (.success body) p).1.files p =
      some ((iter_content body).flatten) ∧
    (iter_content body).flatten = body ∧
    (download_file fs (.success body) p).1.dirs q = true := by
  have hqE : q.isEmpty = false := by
    cases q with
    | nil => exact absurd rfl hq1
    | cons a l => rfl
  refine ⟨rfl, ?_, iter_content_join body, ?_⟩
  · have h0 :
        ((fs.mkdir_parents p.dropLast).truncate p).files p = some [] := by
      simp [FileSystem.truncate]
    have h1 := foldl_appendFile_files p (iter_content body) _ [] h0
    simp only [download_file]
    simpa using h1
  · simp only [download_file]
    rw [foldl_appendFile_dirs]
    simp [FileSystem.truncate, FileSystem.mkdir_parents, hqE, hq2]

/-- Witness for C7: a 3-byte body written to `out/a.glb` on an empty
filesystem; the parent directory `out` is created and the file holds
exactly the body. -/
theorem claim_C7_download_writes_body_witness :
    (download_file fs_empty (.success [1, 2, 3]) ["out", "a.glb"]).2 =
      .ok () ∧
    (download_file fs_empty (.success [1, 2, 3])
        ["out", "a.glb"]).1.files ["out", "a.glb"] =
      some ((iter_content [1, 2, 3]).flatten) ∧
    (iter_content [1, 2, 3]).flatten = [1, 2, 3] ∧
    (download_file fs_empty (.success [1, 2, 3])
        ["out", "a.glb"]).1.dirs ["out"] = true :=
  claim_C7_download_writes_body fs_empty [1, 2, 3] ["out", "a.glb"]
    ["out"] (by decide) (by decide)

/-- Claim C10: `download_file` truncates (creates or empties) the file
at the output path before issuing the GET, so after a failed download —
a non-success HTTP status or a transport error — a file exists at the
output path whose prior contents have been destroyed: it is the empty
file, whatever the filesystem held there before.  The download is not
atomic. -/
theorem claim_C10_failed_download_truncates (fs : FileSystem)
    (p : FsPath) (e : String) :
    (download_file fs (.httpError e) p).2 = .error (.downloadFailed e) ∧
    (download_file fs (.httpError e) p).1.files p = some [] ∧
    (download_file fs (.transportError e) p).2 = .error (.transport e) ∧
    (download_file fs (.transportError e) p).1.files p = some [] := by
  refine ⟨rfl, ?_, rfl, ?_⟩ <;>
    simp [download_file, FileSystem.truncate, FileSystem.mkdir_parents]

/-- Claim C8: when the bearer-token environment variable is unset or
empty, the workflow fails with the configuration error before any
network call is attempted (the outcome is independent of the requester
and download stubs — the network is never consulted) and before any
file is created (the filesystem is unchanged); the process terminates
with exit code 1 after printing the single line `Error: <message>` to
standard error. -/
theorem claim_C8_missing_token (env : String → Option String)
    (asset_id : String) (fs : FileSystem)
    (req req2 : Nat → Except PyExc Json) (get get2 : GetResult)
    (henv : env "MESHCAPADE_API_TOKEN" = none ∨
      env "MESHCAPADE_API_TOKEN" = some "") :
    main [asset_id] env req get fs = main [asset_id] env req2 get2 fs ∧
    (main [asset_id] env req get fs).exit_code = 1 ∧
    (main [asset_id] env req get fs).stderr =
      ["Error: " ++ token_missing_msg] ∧
    (main [asset_id] env req get fs).fs = fs := by
  rcases henv with h | h <;> simp [main, parse_args, main_body, h]

/-- Witness for C8: an empty environment, with two different network
stubs showing the outcome does not depend on them. -/
theorem claim_C8_missing_token_witness :
    main ["abc-123"] env_empty req_ready (.success [1, 2, 3]) fs_empty =
      main ["abc-123"] env_empty req_raises (.httpError "boom") fs_empty ∧
    (main ["abc-123"] env_empty req_ready (.success [1, 2, 3])
      fs_empty).exit_code = 1 ∧
    (main ["abc-123"] env_empty req_ready (.success [1, 2, 3])
      fs_empty).stderr = ["Error: " ++ token_missing_msg] ∧
    (main ["abc-123"] env_empty req_ready (.success [1, 2, 3])
      fs_empty).fs = fs_empty :=
  claim_C8_missing_token env_empty "abc-123" fs_empty req_ready req_raises
    (.success [1, 2, 3]) (.httpError "boom") (Or.inl rfl)

/-- Claim C9 (amended): the asset identifier is validated for presence
only: invoking the program with no asset identifier is rejected by the
argument parser (exit code 2), while every supplied string — including
the empty string — is accepted verbatim and handed to the workflow with
no further validation. -/
theorem claim_C9_asset_id_presence_only (env : String → Option String)
    (req : Nat → Except PyExc Json) (get : GetResult) (fs : FileSystem) :
    parse_args [] = .error .missingArgument ∧
    (main [] env req get fs).exit_code = 2 ∧
    (∀ s, parse_args [s] = .ok s) ∧
    (∀ s, main [s] env req get fs = main_body env s req get fs) :=
  ⟨rfl, rfl, fun _ => rfl, fun _ => rfl⟩

/-- Counterexample for C9 as stated: the empty asset identifier is not
rejected — `argparse` accepts `""`, and a run with an empty identifier
proceeds through the whole workflow and succeeds (exit code 0), writing
the downloaded bytes to the file `.glb`. -/
theorem claim_C9_counterexample :
    parse_args [""] = .ok "" ∧
    (main [""] env_with_token req_ready (.success [9, 9])
      fs_empty).exit_code = 0 ∧
    (main [""] env_with_token req_ready (.success [9, 9])
      fs_empty).fs.files [".glb"] = some [9, 9] := by
  have hexp : export_avatar req_ready =
      .ok (.str "https://example/x.glb", []) :=
    export_avatar_loop_done [] rfl rfl
  have happ : ("" ++ ".glb" : String) = ".glb" := rfl
  have henv2 : env_with_token "MESHCAPADE_API_TOKEN" = some "token123" :=
    rfl
  have h0 : ((fs_empty.mkdir_parents []).truncate
      [".glb"]).files [".glb"] = some [] := by
    simp [FileSystem.truncate]
  have h1 := foldl_appendFile_files [".glb"] (iter_content [9, 9]) _ [] h0
  rw [iter_content_join] at h1
  simp only [List.nil_append] at h1
  refine ⟨rfl, ?_, ?_⟩ <;>
    simp [main, parse_args, main_body, henv2, happ, hexp, download_file, h1]

end Meshcapade
